import Mathlib

/-!
Shallow embedding of the campaign dispatch core of
marketjoys/AutomatedResponder, file src/backend/app/routes/campaigns.py.

The embedding covers the two components the specification describes:

* the Audience Builder: the list-collection, deduplication and capping
  steps of the send_campaign route (lines 46-62 of campaigns.py), and
* the Dispatch Executor: the background routine process_campaign_emails
  (lines 80-140), whose external collaborators (template rendering,
  the email provider's send call, the persistence layer, the throttling
  sleep) are modelled by an environment recording, per recipient, the
  outcome of each external call made in that loop iteration: either a
  normal result or a raised exception.

Status updates and send attempts are additionally recorded as an event
trace so that ordering claims (active before any attempt, completed
last) can be stated.  FastAPI background tasks run only after the
response is returned, so the trigger's "active" status write (line 68)
precedes everything the background run does; the trace of a whole
trigger therefore starts with the active transition.
-/

namespace AutomatedResponder

/-- A prospect (recipient): the dispatch code reads its id and its email
address; all other profile fields are consumed only by the external
render collaborator, which the environment models. -/
structure Prospect where
  pid : String
  email : String
deriving DecidableEq, Repr

/-- Result of one call to an external collaborator: a normal return or a
raised exception (with its message). -/
inductive StepResult (A : Type) where
  | ok : A → StepResult A
  | exn : String → StepResult A
deriving DecidableEq, Repr

/-- True when the call returned normally (did not raise). -/
def StepResult.isOk {A : Type} : StepResult A → Bool
  | .ok _ => true
  | .exn _ => false

/-- Outcomes of the external calls made while processing one prospect in
the per-recipient loop of process_campaign_emails, in program order:
render of the body (line 94), render of the subject (line 95), the
provider send call (lines 98-103) returning (success, optional error),
persisting the email record (line 119), updating the prospect's last
contact (line 127), and the throttling sleep (line 130).  newId models
the generate_id() call at line 110 and sendTime the datetime.utcnow()
at line 116. -/
structure IterEnv where
  renderContent : StepResult String
  renderSubject : StepResult String
  send : StepResult (Bool × Option String)
  createRecord : StepResult Unit
  updateLastContact : StepResult Unit
  sleep : StepResult Unit
  newId : String
  sendTime : Nat
deriving DecidableEq, Repr

/-- The Outcome Record (EmailMessage constructed at lines 109-117):
rendered subject and content, status sent or failed, and the optional
sent timestamp. -/
structure EmailMessage where
  mid : String
  prospect_id : String
  campaign_id : String
  subject : String
  content : String
  status : String
  sent_at : Option Nat
deriving DecidableEq, Repr

/-- Observable events of one campaign trigger: the two campaign status
writes (lines 68-71 and line 138) and each invocation of the provider
send call (line 98). -/
inductive Event where
  | statusActive : Nat → Event
  | sendAttempt : String → Event
  | statusCompleted : Event
deriving DecidableEq, Repr

/-- The default email provider handle returned by
email_provider_service.get_default_provider (line 86). -/
structure Provider where
  provId : String
deriving DecidableEq, Repr

/-! ## Audience Builder (send_campaign, lines 46-62) -/

/-- Deduplication loop of lines 52-58: walk the collected prospects,
keep a prospect only when its email has not been seen yet, accumulating
the seen emails. -/
def dedupProspects : List Prospect → List String → List Prospect
  | [], _ => []
  | p :: ps, seen =>
    if p.email ∈ seen then dedupProspects ps seen
    else p :: dedupProspects ps (p.email :: seen)

/-- Lines 46-58: concatenate the member lists in order (the extend calls
of line 50), then deduplicate with an initially empty seen set. -/
def uniqueProspects (lists : List (List Prospect)) : List Prospect :=
  dedupProspects lists.flatten []

/-- Line 61: campaign.get with default 100 for the max_emails cap. -/
def effectiveCap (max_emails : Option Nat) : Nat :=
  max_emails.getD 100

/-- Lines 46-62: the audience is the deduplicated sequence truncated to
the first max_emails entries (line 62). -/
def buildAudience (lists : List (List Prospect)) (cap : Nat) : List Prospect :=
  (uniqueProspects lists).take cap

/-- Modelled from the spec's words, for comparison with the code's
deduplication: keep the first occurrence of each email, in order. -/
def specFirstSeenWins : List Prospect → List Prospect
  | [] => []
  | p :: ps => p :: specFirstSeenWins (ps.filter fun q => q.email != p.email)
termination_by l => l.length
decreasing_by
  simp only [List.length_cons]
  exact Nat.lt_succ_of_le (List.length_filter_le _ _)

/-! ## Dispatch Executor (process_campaign_emails, lines 80-140) -/

/-- Effects of one iteration of the per-recipient loop: the email
records persisted, the increments applied to the two counters, whether
the prospect's last-contact update was performed, and the events
(send attempts) emitted. -/
structure IterOutput where
  records : List EmailMessage
  sentInc : Nat
  failedInc : Nat
  contacted : Bool
  events : List Event
deriving DecidableEq, Repr

/-- One iteration of the loop at lines 91-135, with the try/except of
lines 92 and 132-135 made explicit: the external calls run in program
order, and the first call that raises sends control to the except
block, which only increments failed_count and continues.  A send
attempt event is emitted whenever execution reaches the send call
(line 98), even if that call itself raises.  The email record is
persisted (and hence observable) only when create_email_record
(line 119) returns normally. -/
def processProspect (cid : String) (e : IterEnv) (p : Prospect) : IterOutput :=
  match e.renderContent with
  | .exn _ => ⟨[], 0, 1, false, []⟩
  | .ok content =>
    match e.renderSubject with
    | .exn _ => ⟨[], 0, 1, false, []⟩
    | .ok subject =>
      match e.send with
      | .exn _ => ⟨[], 0, 1, false, [.sendAttempt p.email]⟩
      | .ok (success, _err) =>
        let record : EmailMessage :=
          ⟨e.newId, p.pid, cid, subject, content,
           if success then "sent" else "failed",
           if success then some e.sendTime else none⟩
        match e.createRecord with
        | .exn _ => ⟨[], 0, 1, false, [.sendAttempt p.email]⟩
        | .ok _ =>
          let si := if success then 1 else 0
          let fi := if success then 0 else 1
          match e.updateLastContact with
          | .exn _ => ⟨[record], si, fi + 1, false, [.sendAttempt p.email]⟩
          | .ok _ =>
            match e.sleep with
            | .exn _ => ⟨[record], si, fi + 1, true, [.sendAttempt p.email]⟩
            | .ok _ => ⟨[record], si, fi, true, [.sendAttempt p.email]⟩

/-- Accumulated effects of a whole dispatch run. -/
structure RunResult where
  records : List EmailMessage
  sent_count : Nat
  failed_count : Nat
  contacts : List String
  trace : List Event
  completed : Bool
deriving DecidableEq, Repr

/-- The loop of lines 91-135 over the whole audience, sequentially,
concatenating per-iteration effects in order. -/
def runLoop (cid : String) (env : Prospect → IterEnv) : List Prospect → RunResult
  | [] => ⟨[], 0, 0, [], [], false⟩
  | p :: ps =>
    let o := processProspect cid (env p) p
    let r := runLoop cid env ps
    ⟨o.records ++ r.records, o.sentInc + r.sent_count, o.failedInc + r.failed_count,
     (if o.contacted then [p.pid] else []) ++ r.contacts,
     o.events ++ r.trace, r.completed⟩

/-- process_campaign_emails, lines 80-140: resolve the default provider
(lines 86-89), returning immediately if none is configured; otherwise
run the loop and finally write the completed status (line 138). -/
def process_campaign_emails (cid : String) (prospects : List Prospect)
    (provider : Option Provider) (env : Prospect → IterEnv) : RunResult :=
  match provider with
  | none => ⟨[], 0, 0, [], [], false⟩
  | some _ =>
    let r := runLoop cid env prospects
    ⟨r.records, r.sent_count, r.failed_count, r.contacts,
     r.trace ++ [.statusCompleted], true⟩

/-- Result of one whole trigger of the send_campaign route (lines
35-78) together with the background run it schedules. -/
structure SendOutcome where
  audience : List Prospect
  run : RunResult
  fullTrace : List Event
  response_status : String
  response_total : Nat
deriving Repr

/-- send_campaign (lines 35-78) followed by its scheduled background
run: build the audience, write the active status with the recipient
count (lines 68-71), answer the caller (lines 73-78), and then the
background task runs (FastAPI background tasks execute after the
response, so the active write precedes every event of the run). -/
def send_campaign (cid : String) (lists : List (List Prospect))
    (max_emails : Option Nat) (provider : Option Provider)
    (env : Prospect → IterEnv) : SendOutcome :=
  let audience := buildAudience lists (effectiveCap max_emails)
  let run := process_campaign_emails cid audience provider env
  ⟨audience, run, .statusActive audience.length :: run.trace,
   "active", audience.length⟩

/-! ## Derived predicates on one iteration's environment -/

/-- The send call returned normally and reported success. -/
def IterEnv.sendSuccess (e : IterEnv) : Bool :=
  match e.send with
  | .ok (s, _) => s
  | .exn _ => false

/-- Execution reached and completed the persistence of the email record:
no exception in either render, in the send call, or in
create_email_record. -/
def IterEnv.persistReached (e : IterEnv) : Bool :=
  e.renderContent.isOk && e.renderSubject.isOk && e.send.isOk && e.createRecord.isOk

/-- Execution reached and completed the last-contact update. -/
def IterEnv.contactReached (e : IterEnv) : Bool :=
  e.persistReached && e.updateLastContact.isOk

/-- An exception was raised after the counter increment of lines
121-124: in the last-contact update or in the sleep.  Such an iteration
runs the except block on top of the already-applied increment. -/
def IterEnv.lateExn (e : IterEnv) : Bool :=
  e.persistReached && !(e.updateLastContact.isOk && e.sleep.isOk)

/-- The iteration persisted its record and the send reported success:
exactly the iterations that increment the sent counter. -/
def IterEnv.sentOk (e : IterEnv) : Bool :=
  e.persistReached && e.sendSuccess

/-- Value of a call that returned normally (default for the exception
case, used only to state closed forms). -/
def StepResult.getOk {A : Type} (d : A) : StepResult A → A
  | .ok a => a
  | .exn _ => d

/-- Closed form of the email record an iteration persists when it
reaches persistence. -/
def mkRecord (cid : String) (e : IterEnv) (p : Prospect) : EmailMessage :=
  ⟨e.newId, p.pid, cid,
   e.renderSubject.getOk "", e.renderContent.getOk "",
   if e.sendSuccess then "sent" else "failed",
   if e.sendSuccess then some e.sendTime else none⟩

/-! ## Sample data for witnesses and counterexamples -/

/-- Prospect a@x of the spec's two-list scenario. -/
def pa : Prospect := ⟨"p-a", "a@x"⟩

/-- Prospect b@x, first occurrence (list A). -/
def pb : Prospect := ⟨"p-b", "b@x"⟩

/-- A second prospect with email b@x (list B's copy). -/
def pb2 : Prospect := ⟨"p-b2", "b@x"⟩

/-- Prospect c@x of the spec's two-list scenario. -/
def pc : Prospect := ⟨"p-c", "c@x"⟩

/-- A configured default provider. -/
def prov1 : Provider := ⟨"prov-1"⟩

/-- Environment in which every external call returns normally and the
send call reports the given success flag. -/
def okEnv (success : Bool) : IterEnv :=
  ⟨.ok "body", .ok "subj", .ok (success, none), .ok (), .ok (), .ok (), "m-1", 5⟩

/-- Environment in which the provider send call raises. -/
def sendExnEnv : IterEnv :=
  ⟨.ok "body", .ok "subj", .exn "SMTP connection refused", .ok (), .ok (), .ok (), "m-1", 5⟩

/-- Environment in which everything succeeds up to and including record
persistence, and then the last-contact update raises. -/
def lateExnEnv : IterEnv :=
  ⟨.ok "body", .ok "subj", .ok (true, none), .ok (), .exn "db write error", .ok (), "m-1", 5⟩

/-- Environment family in which exactly prospect pb raises (during the
send call) and every other prospect processes normally. -/
def envMixed : Prospect → IterEnv :=
  fun q => if q = pb then sendExnEnv else okEnv true

/-! ## Closed form of one loop iteration -/

/-- Characterization of one iteration of the per-recipient loop in
terms of the derived predicates on its environment. -/
theorem processProspect_eq (cid : String) (e : IterEnv) (p : Prospect) :
    processProspect cid e p =
      ⟨(if e.persistReached then [mkRecord cid e p] else []),
       (if e.sentOk then 1 else 0),
       ((if e.sentOk then 0 else 1) + (if e.lateExn then 1 else 0)),
       e.contactReached,
       (if e.renderContent.isOk && e.renderSubject.isOk
         then [.sendAttempt p.email] else [])⟩ := by
  obtain ⟨rc, rs, snd, cr, ul, sl, nid, st⟩ := e
  cases rc with
  | exn m => rfl
  | ok content =>
    cases rs with
    | exn m => rfl
    | ok subject =>
      cases snd with
      | exn m => rfl
      | ok pr =>
        obtain ⟨success, err⟩ := pr
        cases cr with
        | exn m => cases success <;> rfl
        | ok u =>
          cases ul with
          | exn m => cases success <;> rfl
          | ok v =>
            cases sl with
            | exn m => cases success <;> rfl
            | ok w => cases success <;> rfl

/-! ## Audience Builder lemmas -/

/-- The deduplication loop computes first-seen-wins on the prospects
whose emails are not already seen. -/
theorem dedupProspects_eq_spec (l : List Prospect) :
    ∀ seen : List String,
      dedupProspects l seen =
        specFirstSeenWins (l.filter fun q => !decide (q.email ∈ seen)) := by
  induction l with
  | nil => intro seen; simp [dedupProspects, specFirstSeenWins]
  | cons p ps ih =>
    intro seen
    by_cases h : p.email ∈ seen
    · simp [dedupProspects, List.filter_cons, h, ih]
    · have hfil : (ps.filter fun q => !decide (q.email ∈ p.email :: seen)) =
          ((ps.filter fun q => !decide (q.email ∈ seen)).filter
            fun q => q.email != p.email) := by
        rw [List.filter_filter]
        apply List.filter_congr
        intro q _
        by_cases h1 : q.email = p.email <;> by_cases h2 : q.email ∈ seen <;>
          simp [h1, h2]
      have hpred : ∀ q : Prospect,
          (!decide (q.email = p.email) && !decide (q.email ∈ seen)) =
            (q.email != p.email && !decide (q.email ∈ seen)) := by
        intro q; by_cases h1 : q.email = p.email <;> simp [h1]
      simp [dedupProspects, List.filter_cons, h, ih, specFirstSeenWins, hfil, hpred]

/-- Emails already seen never occur in the output, and the output's
emails are distinct. -/
theorem dedupProspects_nodup (l : List Prospect) :
    ∀ seen : List String,
      ((dedupProspects l seen).map Prospect.email).Nodup ∧
        ∀ s ∈ seen, s ∉ (dedupProspects l seen).map Prospect.email := by
  induction l with
  | nil => intro seen; simp [dedupProspects]
  | cons p ps ih =>
    intro seen
    by_cases h : p.email ∈ seen
    · simpa [dedupProspects, if_pos h] using ih seen
    · have ih2 := ih (p.email :: seen)
      constructor
      · simp only [dedupProspects, if_neg h, List.map_cons, List.nodup_cons]
        exact ⟨ih2.2 p.email (List.mem_cons_self _ _), ih2.1⟩
      · intro s hs
        simp only [dedupProspects, if_neg h, List.map_cons, List.mem_cons]
        rintro (rfl | hmem)
        · exact h hs
        · exact ih2.2 s (List.mem_cons_of_mem _ hs) hmem

/-! ## Dispatch loop lemmas -/

/-- The records persisted by the loop: one per prospect whose iteration
reached persistence, in audience order. -/
theorem runLoop_records (cid : String) (env : Prospect → IterEnv)
    (ps : List Prospect) :
    (runLoop cid env ps).records =
      (ps.filter fun p => (env p).persistReached).map
        fun p => mkRecord cid (env p) p := by
  induction ps with
  | nil => rfl
  | cons p ps ih =>
    by_cases h : (env p).persistReached <;>
      simp [runLoop, processProspect_eq, List.filter_cons, h, ih]

/-- The final sent counter counts prospects whose record was persisted
with a send that reported success. -/
theorem runLoop_sent (cid : String) (env : Prospect → IterEnv)
    (ps : List Prospect) :
    (runLoop cid env ps).sent_count =
      ps.countP fun p => (env p).sentOk := by
  induction ps with
  | nil => rfl
  | cons p ps ih =>
    by_cases h : (env p).sentOk = true
    · simp [runLoop, processProspect_eq, List.countP_cons, h, ih]
      omega
    · simp [runLoop, processProspect_eq, List.countP_cons, h, ih]

/-- The final failed counter counts every prospect without a
persisted-and-successful send, plus once more every prospect whose
iteration raised after the counter increment. -/
theorem runLoop_failed (cid : String) (env : Prospect → IterEnv)
    (ps : List Prospect) :
    (runLoop cid env ps).failed_count =
      (ps.countP fun p => !(env p).sentOk) +
        ps.countP fun p => (env p).lateExn := by
  induction ps with
  | nil => rfl
  | cons p ps ih =>
    by_cases h1 : (env p).sentOk = true <;>
      by_cases h2 : (env p).lateExn = true <;>
        simp [runLoop, processProspect_eq, List.countP_cons, h1, h2, ih] <;> omega

/-- The prospects whose last-contact timestamp was updated: exactly
those whose iteration reached the update without an exception. -/
theorem runLoop_contacts (cid : String) (env : Prospect → IterEnv)
    (ps : List Prospect) :
    (runLoop cid env ps).contacts =
      (ps.filter fun p => (env p).contactReached).map Prospect.pid := by
  induction ps with
  | nil => rfl
  | cons p ps ih =>
    by_cases h : (env p).contactReached <;>
      simp [runLoop, processProspect_eq, List.filter_cons, h, ih]

/-- The loop's trace: one send attempt per prospect whose renders
returned, in audience order. -/
theorem runLoop_trace (cid : String) (env : Prospect → IterEnv)
    (ps : List Prospect) :
    (runLoop cid env ps).trace =
      (ps.filter fun p =>
          (env p).renderContent.isOk && (env p).renderSubject.isOk).map
        fun p => Event.sendAttempt p.email := by
  induction ps with
  | nil => rfl
  | cons p ps ih =>
    by_cases h : ((env p).renderContent.isOk && (env p).renderSubject.isOk)
        = true <;>
      simp [runLoop, processProspect_eq, List.filter_cons, h, ih]

/-- The loop itself never writes the completed status. -/
theorem runLoop_completed (cid : String) (env : Prospect → IterEnv)
    (ps : List Prospect) :
    (runLoop cid env ps).completed = false := by
  induction ps with
  | nil => rfl
  | cons p ps ih => simp [runLoop, ih]

/-- With a configured provider, the run's records are the loop's. -/
theorem process_some_records (cid : String) (ps : List Prospect)
    (prov : Provider) (env : Prospect → IterEnv) :
    (process_campaign_emails cid ps (some prov) env).records =
      (runLoop cid env ps).records := rfl

/-- With a configured provider, the run's sent counter is the loop's. -/
theorem process_some_sent (cid : String) (ps : List Prospect)
    (prov : Provider) (env : Prospect → IterEnv) :
    (process_campaign_emails cid ps (some prov) env).sent_count =
      (runLoop cid env ps).sent_count := rfl

/-- With a configured provider, the run's failed counter is the
loop's. -/
theorem process_some_failed (cid : String) (ps : List Prospect)
    (prov : Provider) (env : Prospect → IterEnv) :
    (process_campaign_emails cid ps (some prov) env).failed_count =
      (runLoop cid env ps).failed_count := rfl

/-- With a configured provider, the run's contact updates are the
loop's. -/
theorem process_some_contacts (cid : String) (ps : List Prospect)
    (prov : Provider) (env : Prospect → IterEnv) :
    (process_campaign_emails cid ps (some prov) env).contacts =
      (runLoop cid env ps).contacts := rfl

/-- Counting a predicate and its negation exhausts the list. -/
theorem countP_add_countP_not (p : Prospect → Bool) (l : List Prospect) :
    l.countP p + l.countP (fun a => !p a) = l.length := by
  induction l with
  | nil => rfl
  | cons a l ih =>
    by_cases h : p a = true <;> simp [List.countP_cons, h] <;> omega

/-- The code's deduplicated sequence is exactly the spec's
first-seen-wins sequence. -/
theorem uniqueProspects_eq_spec (lists : List (List Prospect)) :
    uniqueProspects lists = specFirstSeenWins lists.flatten := by
  unfold uniqueProspects
  rw [dedupProspects_eq_spec]
  congr 1
  apply List.filter_eq_self.mpr
  intro a _
  simp

/-! ## Claim theorems -/

/-- C1 counterexample: one recipient whose send call raises an
exception is processed in a run that finalizes (status completed), yet
zero Outcome Records are created for an audience of one — so the claim
that exactly one record is created per recipient even when an exception
is raised is false on the code. -/
theorem claim_C1_counterexample :
    sendExnEnv.send = StepResult.exn "SMTP connection refused"
    ∧ (process_campaign_emails "c-1" [pa] (some prov1)
        (fun _ => sendExnEnv)).completed = true
    ∧ (process_campaign_emails "c-1" [pa] (some prov1)
        (fun _ => sendExnEnv)).records.length = 0
    ∧ [pa].length = 1 := by
  refine ⟨rfl, rfl, rfl, rfl⟩

/-- C1 (amended): by the time the run finalizes, exactly one Outcome
Record has been created per recipient whose processing completed record
persistence without raising an exception — regardless of whether the
send reported success or failure — and none for a recipient whose
processing raised before or during persistence; in particular, when no
recipient raises such an exception, the record count equals the
audience length. -/
theorem claim_C1_amended (cid : String) (prospects : List Prospect)
    (prov : Provider) (env : Prospect → IterEnv) :
    (process_campaign_emails cid prospects (some prov) env).completed = true
    ∧ (process_campaign_emails cid prospects (some prov) env).records.map
        (fun r => r.prospect_id) =
      (prospects.filter fun p => (env p).persistReached).map Prospect.pid
    ∧ ((∀ p ∈ prospects, (env p).persistReached = true) →
        (process_campaign_emails cid prospects (some prov) env).records.length
          = prospects.length) := by
  have hrec : (process_campaign_emails cid prospects (some prov) env).records.map
      (fun r => r.prospect_id) =
      (prospects.filter fun p => (env p).persistReached).map Prospect.pid := by
    rw [process_some_records, runLoop_records, List.map_map]
    rfl
  refine ⟨rfl, hrec, ?_⟩
  intro h
  have hlen := congrArg List.length hrec
  simp only [List.length_map] at hlen
  rw [hlen, List.filter_eq_self.mpr h]

/-- C1 witness: a two-recipient run in which both sends report failure
but nothing raises still creates one record per recipient. -/
theorem claim_C1_witness :
    (∀ p ∈ [pa, pb], ((fun _ => okEnv false) p).persistReached = true)
    ∧ (process_campaign_emails "c-1" [pa, pb] (some prov1)
        (fun _ => okEnv false)).records.length = [pa, pb].length :=
  ⟨by decide,
   (claim_C1_amended "c-1" [pa, pb] prov1 (fun _ => okEnv false)).2.2
     (by decide)⟩

/-- C2: the built audience is exactly the first-seen-wins sequence
(list order, then within-list order) truncated to the cap, its emails
are pairwise distinct, and on the spec's two-list scenario with cap 2
the audience is the a@x and b@x prospects of list A. -/
theorem claim_C2 (lists : List (List Prospect)) (cap : Nat) :
    buildAudience lists cap = (specFirstSeenWins lists.flatten).take cap
    ∧ ((buildAudience lists cap).map Prospect.email).Nodup
    ∧ buildAudience [[pa, pb], [pb2, pc]] 2 = [pa, pb] := by
  refine ⟨?_, ?_, by decide⟩
  · unfold buildAudience
    rw [uniqueProspects_eq_spec]
  · have h1 := (dedupProspects_nodup lists.flatten []).1
    have h2 : List.Sublist ((buildAudience lists cap).map Prospect.email)
        ((uniqueProspects lists).map Prospect.email) := by
      unfold buildAudience
      rw [List.map_take]
      exact List.take_sublist _ _
    exact List.Nodup.sublist h2 h1

/-- C3: the audience never exceeds the cap, equals the first cap
entries of the deduplicated sequence, equals the whole deduplicated
sequence whenever the cap is at least its length, and an unspecified
cap defaults to 100. -/
theorem claim_C3 (lists : List (List Prospect)) (c : Nat) :
    (buildAudience lists c).length ≤ c
    ∧ buildAudience lists c = (uniqueProspects lists).take c
    ∧ ((uniqueProspects lists).length ≤ c →
        buildAudience lists c = uniqueProspects lists)
    ∧ effectiveCap none = 100 := by
  refine ⟨?_, rfl, ?_, rfl⟩
  · unfold buildAudience
    rw [List.length_take]
    exact Nat.min_le_left _ _
  · intro h
    unfold buildAudience
    exact List.take_of_length_le h

/-- C3 witness: with two unique recipients and cap 5 the audience is
the full deduplicated sequence. -/
theorem claim_C3_witness :
    (uniqueProspects [[pa, pb]]).length ≤ 5
    ∧ buildAudience [[pa, pb]] 5 = uniqueProspects [[pa, pb]] :=
  ⟨by decide, (claim_C3 [[pa, pb]] 5).2.2.1 (by decide)⟩

/-- C4: with no default provider configured, the dispatch run creates
no records, makes no send attempt, updates no prospect, increments no
counter, writes no status (so the campaign keeps its prior status and
never reaches completed). -/
theorem claim_C4 (cid : String) (prospects : List Prospect)
    (env : Prospect → IterEnv) :
    process_campaign_emails cid prospects none env =
      ⟨[], 0, 0, [], [], false⟩ := rfl

/-- C5: an exception while processing one recipient is absorbed inside
the loop: every run with a configured provider finalizes (the completed
status is the last event of its trace), and the processing of every
other recipient is unchanged when that one recipient's external calls
change in any way (including raising). -/
theorem claim_C5 (cid : String) (prospects : List Prospect)
    (prov : Provider) (env env2 : Prospect → IterEnv) (p0 : Prospect)
    (hagree : ∀ q, q ≠ p0 → env q = env2 q) :
    (process_campaign_emails cid prospects (some prov) env).completed = true
    ∧ (process_campaign_emails cid prospects (some prov) env).trace.getLast?
        = some Event.statusCompleted
    ∧ ∀ q ∈ prospects, q ≠ p0 →
        processProspect cid (env q) q = processProspect cid (env2 q) q := by
  refine ⟨rfl, ?_, ?_⟩
  · exact List.getLast?_concat _
  · intro q _ hne
    rw [hagree q hne]

/-- C5 witness: in a three-recipient run where the middle recipient's
send raises, the run finalizes and the other two recipients are
processed exactly as in a fully normal run. -/
theorem claim_C5_witness :
    (process_campaign_emails "c-1" [pa, pb, pc] (some prov1)
      envMixed).completed = true
    ∧ (process_campaign_emails "c-1" [pa, pb, pc] (some prov1)
        envMixed).trace.getLast? = some Event.statusCompleted
    ∧ ∀ q ∈ [pa, pb, pc], q ≠ pb →
        processProspect "c-1" (envMixed q) q =
          processProspect "c-1" ((fun _ => okEnv true) q) q :=
  claim_C5 "c-1" [pa, pb, pc] prov1 envMixed (fun _ => okEnv true) pb
    (by
      intro q hq
      simp [envMixed, hq])

/-- C6: every created Outcome Record has status sent or failed, carries
the send timestamp exactly when its status is sent, carries no
timestamp exactly when its status is failed, and has status sent
exactly when the send call reported success. -/
theorem claim_C6 (cid : String) (e : IterEnv) (p : Prospect) :
    ∀ r ∈ (processProspect cid e p).records,
      (r.status = "sent" ∨ r.status = "failed")
      ∧ (r.status = "sent" ↔ r.sent_at = some e.sendTime)
      ∧ (r.status = "failed" ↔ r.sent_at = none)
      ∧ (r.status = "sent" ↔ e.sendSuccess = true) := by
  intro r hr
  rw [processProspect_eq] at hr
  by_cases h : e.persistReached = true
  · simp only [h, if_true] at hr
    simp only [List.mem_singleton] at hr
    subst hr
    by_cases hs : e.sendSuccess = true <;> simp [mkRecord, hs]
  · simp [h] at hr

/-- C6 witness: the record of a normal successful send is sent with a
timestamp, and the equivalences hold for it. -/
theorem claim_C6_witness :
    (⟨"m-1", "p-a", "c-1", "subj", "body", "sent", some 5⟩ : EmailMessage)
        ∈ (processProspect "c-1" (okEnv true) pa).records
    ∧ (((⟨"m-1", "p-a", "c-1", "subj", "body", "sent", some 5⟩ :
          EmailMessage).status = "sent"
        ∨ (⟨"m-1", "p-a", "c-1", "subj", "body", "sent", some 5⟩ :
          EmailMessage).status = "failed")
      ∧ ((⟨"m-1", "p-a", "c-1", "subj", "body", "sent", some 5⟩ :
          EmailMessage).status = "sent"
          ↔ (⟨"m-1", "p-a", "c-1", "subj", "body", "sent", some 5⟩ :
          EmailMessage).sent_at = some (okEnv true).sendTime)
      ∧ ((⟨"m-1", "p-a", "c-1", "subj", "body", "sent", some 5⟩ :
          EmailMessage).status = "failed"
          ↔ (⟨"m-1", "p-a", "c-1", "subj", "body", "sent", some 5⟩ :
          EmailMessage).sent_at = none)
      ∧ ((⟨"m-1", "p-a", "c-1", "subj", "body", "sent", some 5⟩ :
          EmailMessage).status = "sent" ↔ (okEnv true).sendSuccess = true)) :=
  ⟨by decide,
   claim_C6 "c-1" (okEnv true) pa
     (⟨"m-1", "p-a", "c-1", "subj", "body", "sent", some 5⟩ : EmailMessage)
     (by decide)⟩

/-- C7 counterexample: a recipient whose send call raises an exception
gets no last-contact update (the run still finalizes), so the claim
that the timestamp is updated even when an exception is raised is false
on the code. -/
theorem claim_C7_counterexample :
    sendExnEnv.send = StepResult.exn "SMTP connection refused"
    ∧ (process_campaign_emails "c-1" [pa] (some prov1)
        (fun _ => sendExnEnv)).contacts = []
    ∧ (process_campaign_emails "c-1" [pa] (some prov1)
        (fun _ => sendExnEnv)).completed = true
    ∧ [pa].length = 1 := by
  refine ⟨rfl, rfl, rfl, rfl⟩

/-- C7 (amended): the recipients whose last-contact timestamp is
updated are exactly those whose processing reaches the update without
an exception — so the update happens regardless of whether the send
reported success or failure, but not when an exception is raised at or
before the update. -/
theorem claim_C7_amended (cid : String) (prospects : List Prospect)
    (prov : Provider) (env : Prospect → IterEnv) :
    (process_campaign_emails cid prospects (some prov) env).contacts =
      (prospects.filter fun p => (env p).contactReached).map Prospect.pid
    ∧ ∀ p ∈ prospects, (env p).contactReached = true →
        p.pid ∈ (process_campaign_emails cid prospects (some prov) env).contacts := by
  have hc : (process_campaign_emails cid prospects (some prov) env).contacts =
      (prospects.filter fun p => (env p).contactReached).map Prospect.pid := by
    rw [process_some_contacts, runLoop_contacts]
  refine ⟨hc, ?_⟩
  intro p hp hcr
  rw [hc]
  exact List.mem_map_of_mem _ (List.mem_filter.mpr ⟨hp, hcr⟩)

/-- C7 witness: a recipient whose send reports failure (without an
exception) still gets its last-contact update. -/
theorem claim_C7_witness :
    pa ∈ [pa]
    ∧ ((fun _ => okEnv false) pa).contactReached = true
    ∧ pa.pid ∈ (process_campaign_emails "c-1" [pa] (some prov1)
        (fun _ => okEnv false)).contacts :=
  ⟨by decide, by decide,
   (claim_C7_amended "c-1" [pa] prov1 (fun _ => okEnv false)).2 pa
     (by decide) (by decide)⟩

/-- C8: within a triggered run with a configured provider, the trace is
exactly the active transition carrying the audience size, then the send
attempts, then the completed transition: active precedes every attempt
and completed follows all of them. -/
theorem claim_C8 (cid : String) (lists : List (List Prospect))
    (max_emails : Option Nat) (prov : Provider)
    (env : Prospect → IterEnv) :
    ∃ attempts : List Event,
      (send_campaign cid lists max_emails (some prov) env).fullTrace =
        Event.statusActive
            (send_campaign cid lists max_emails (some prov) env).audience.length
          :: (attempts ++ [Event.statusCompleted])
      ∧ ∀ ev ∈ attempts, ∃ a, ev = Event.sendAttempt a := by
  refine ⟨(runLoop cid env
    (buildAudience lists (effectiveCap max_emails))).trace, rfl, ?_⟩
  rw [runLoop_trace]
  intro ev hev
  simp only [List.mem_map] at hev
  obtain ⟨p, _, rfl⟩ := hev
  exact ⟨p.email, rfl⟩

/-- C8 witness: the trace shape at a concrete one-recipient trigger. -/
theorem claim_C8_witness :
    ∃ attempts : List Event,
      (send_campaign "c-1" [[pa]] none (some prov1)
          (fun _ => okEnv true)).fullTrace =
        Event.statusActive
            (send_campaign "c-1" [[pa]] none (some prov1)
              (fun _ => okEnv true)).audience.length
          :: (attempts ++ [Event.statusCompleted])
      ∧ ∀ ev ∈ attempts, ∃ a, ev = Event.sendAttempt a :=
  claim_C8 "c-1" [[pa]] none prov1 (fun _ => okEnv true)

/-- C9: with cap 0 and a configured provider, the audience is empty,
the trigger writes active with count 0, the run writes completed
immediately after, and there are zero records, zero send attempts and
zero counter increments. -/
theorem claim_C9 (cid : String) (lists : List (List Prospect))
    (prov : Provider) (env : Prospect → IterEnv) :
    (send_campaign cid lists (some 0) (some prov) env).audience = []
    ∧ (send_campaign cid lists (some 0) (some prov) env).fullTrace =
        [Event.statusActive 0, Event.statusCompleted]
    ∧ (send_campaign cid lists (some 0) (some prov) env).run.records = []
    ∧ (send_campaign cid lists (some 0) (some prov) env).run.sent_count = 0
    ∧ (send_campaign cid lists (some 0) (some prov) env).run.failed_count = 0
    ∧ (send_campaign cid lists (some 0) (some prov) env).run.completed
        = true :=
  ⟨rfl, rfl, rfl, rfl, rfl, rfl⟩

/-- C10 counterexample: a recipient whose send succeeds and whose
record is persisted, but whose last-contact update then raises, has its
iteration increment both counters, so for a one-recipient audience
sent plus failed is 2, not 1. -/
theorem claim_C10_counterexample :
    lateExnEnv.updateLastContact = StepResult.exn "db write error"
    ∧ (processProspect "c-1" lateExnEnv pa).sentInc = 1
    ∧ (processProspect "c-1" lateExnEnv pa).failedInc = 1
    ∧ (process_campaign_emails "c-1" [pa] (some prov1)
          (fun _ => lateExnEnv)).sent_count +
        (process_campaign_emails "c-1" [pa] (some prov1)
          (fun _ => lateExnEnv)).failed_count = 2
    ∧ [pa].length = 1 := by
  refine ⟨rfl, rfl, rfl, rfl, rfl⟩

/-- C10 (amended): sent_count counts the recipients whose record was
persisted with a reported-success send; failed_count counts every other
recipient once, plus once more every recipient whose iteration raised
after the counter update (in the last-contact update or the throttling
sleep); hence sent plus failed equals the audience length plus the
number of those post-update-exception iterations — each iteration
increments exactly one counter except those, which increment both. -/
theorem claim_C10_amended (cid : String) (prospects : List Prospect)
    (prov : Provider) (env : Prospect → IterEnv) :
    (process_campaign_emails cid prospects (some prov) env).sent_count =
      prospects.countP (fun p => (env p).sentOk)
    ∧ (process_campaign_emails cid prospects (some prov) env).failed_count =
        prospects.countP (fun p => !(env p).sentOk) +
          prospects.countP (fun p => (env p).lateExn)
    ∧ (process_campaign_emails cid prospects (some prov) env).sent_count +
        (process_campaign_emails cid prospects (some prov) env).failed_count
        = prospects.length + prospects.countP (fun p => (env p).lateExn) := by
  have hs := process_some_sent cid prospects prov env
  have hf := process_some_failed cid prospects prov env
  rw [runLoop_sent] at hs
  rw [runLoop_failed] at hf
  refine ⟨hs, hf, ?_⟩
  rw [hs, hf, ← Nat.add_assoc, countP_add_countP_not]

end AutomatedResponder
